import Mathlib

/-!
A verification development for the request-serving core of the Next.js
server (`packages/next/server/next-server.ts`): routing dispatch, the
incremental-render cache pipeline, middleware dispatch and error
presentation.  TypeScript functions are shallowly embedded as executable
Lean definitions; the theorems at the end of the file settle the spec's
claims against them.
-/

namespace NextServer

/-- The error taxonomy relevant to the dispatch layer of
`next-server.ts`: `DecodeError` (malformed percent-encoding),
`NoFallbackError` (internal "no usable fallback" signal),
`WrappedBuildError` (development build failure wrapper) and a generic
unexpected error. -/
inductive ServerError
  | decodeError
  | noFallback
  | wrappedBuild
  | generic
  deriving DecidableEq, Repr

/-- Split a character list at every occurrence of `sep`; the result is
always nonempty. -/
def splitOnChar (sep : Char) : List Char → List (List Char)
  | [] => [[]]
  | c :: rest =>
    match splitOnChar sep rest with
    | [] => [[c]]
    | seg :: segs =>
      if c = sep then [] :: seg :: segs else (c :: seg) :: segs

/-- `String.splitOn` for a single-character separator. -/
def strSplitOn (sep : Char) (s : String) : List String :=
  (splitOnChar sep s.data).map String.mk

/-- `String.endsWith`. -/
def strEndsWith (s suffix : String) : Bool :=
  s.data.drop (s.data.length - suffix.data.length) = suffix.data

/-- `String.startsWith`. -/
def strStartsWith (s p : String) : Bool :=
  s.data.take p.data.length = p.data

/-- `String.drop`. -/
def strDrop (s : String) (n : Nat) : String :=
  String.mk (s.data.drop n)

/-- `String.dropRight`. -/
def strDropRight (s : String) (n : Nat) : String :=
  String.mk (s.data.take (s.data.length - n))

/-- `String.length`. -/
def strLength (s : String) : Nat := s.data.length

/-- `String.intercalate`. -/
def strIntercalate (sep : String) (l : List String) : String :=
  String.mk (List.intercalate sep.data (l.map String.data))

/-- Character-wise replacement of `\` by `/` (the only `String.replace`
the embedded code needs). -/
def backslashToSlash (s : String) : String :=
  String.mk (s.data.map fun c => if c = '\\' then '/' else c)

/-- `String.toLower`. -/
def strToLower (s : String) : String :=
  String.mk (s.data.map Char.toLower)

/-- `parseInt(s, 10)` on an all-digit string (`none` elsewhere, where
`parseInt` gives `NaN`). -/
def strToNat (s : String) : Option Nat :=
  if s.data ≠ [] ∧ s.data.all (fun c => '0' ≤ c ∧ c ≤ '9') then
    some (s.data.foldl (fun acc c => 10 * acc + (c.toNat - '0'.toNat)) 0)
  else none

/-- Value of a single hexadecimal digit, as read by the ECMAScript
percent-decoding algorithm. -/
def hexVal (c : Char) : Option Nat :=
  if '0' ≤ c ∧ c ≤ '9' then some (c.toNat - '0'.toNat)
  else if 'a' ≤ c ∧ c ≤ 'f' then some (c.toNat - 'a'.toNat + 10)
  else if 'A' ≤ c ∧ c ≤ 'F' then some (c.toNat - 'A'.toNat + 10)
  else none

/-- Is `b` a UTF-8 continuation byte (`0x80`–`0xBF`)? -/
def isContByte (b : Nat) : Bool := 0x80 ≤ b && b ≤ 0xBF

/-- The ECMAScript `Decode` algorithm underlying `decodeURIComponent`,
on character lists: a `%` must be followed by two hex digits giving a
byte; a lead byte `≥ 0x80` must begin a valid (non-overlong,
non-surrogate, `≤ U+10FFFF`) UTF-8 sequence whose continuation bytes are
themselves `%XX` triplets.  Returns `none` where JavaScript throws
`URIError`. -/
def decodeUriChars : List Char → Option (List Char)
  | [] => some []
  | '%' :: c1 :: c2 :: rest =>
    match hexVal c1, hexVal c2 with
    | some h1, some h2 =>
      let b1 := 16 * h1 + h2
      if b1 < 0x80 then
        (Char.ofNat b1 :: ·) <$> decodeUriChars rest
      else if b1 < 0xC2 then
        none
      else if b1 ≤ 0xDF then
        match rest with
        | '%' :: c3 :: c4 :: rest2 =>
          match hexVal c3, hexVal c4 with
          | some h3, some h4 =>
            let b2 := 16 * h3 + h4
            if isContByte b2 then
              (Char.ofNat ((b1 - 0xC0) * 0x40 + (b2 - 0x80)) :: ·) <$>
                decodeUriChars rest2
            else none
          | _, _ => none
        | _ => none
      else if b1 ≤ 0xEF then
        match rest with
        | '%' :: c3 :: c4 :: '%' :: c5 :: c6 :: rest3 =>
          match hexVal c3, hexVal c4, hexVal c5, hexVal c6 with
          | some h3, some h4, some h5, some h6 =>
            let b2 := 16 * h3 + h4
            let b3 := 16 * h5 + h6
            let cp := (b1 - 0xE0) * 0x1000 + (b2 - 0x80) * 0x40 + (b3 - 0x80)
            if isContByte b2 && isContByte b3 && 0x800 ≤ cp &&
                !(0xD800 ≤ cp && cp ≤ 0xDFFF) then
              (Char.ofNat cp :: ·) <$> decodeUriChars rest3
            else none
          | _, _, _, _ => none
        | _ => none
      else if b1 ≤ 0xF4 then
        match rest with
        | '%' :: c3 :: c4 :: '%' :: c5 :: c6 :: '%' :: c7 :: c8 :: rest4 =>
          match hexVal c3, hexVal c4, hexVal c5, hexVal c6,
              hexVal c7, hexVal c8 with
          | some h3, some h4, some h5, some h6, some h7, some h8 =>
            let b2 := 16 * h3 + h4
            let b3 := 16 * h5 + h6
            let b4 := 16 * h7 + h8
            let cp := (b1 - 0xF0) * 0x40000 + (b2 - 0x80) * 0x1000 +
              (b3 - 0x80) * 0x40 + (b4 - 0x80)
            if isContByte b2 && isContByte b3 && isContByte b4 &&
                0x10000 ≤ cp && cp ≤ 0x10FFFF then
              (Char.ofNat cp :: ·) <$> decodeUriChars rest4
            else none
          | _, _, _, _, _, _ => none
        | _ => none
      else none
    | _, _ => none
  | '%' :: _ => none
  | c :: rest => (c :: ·) <$> decodeUriChars rest

/-- JavaScript `decodeURIComponent`, returning `none` where it throws. -/
def decodeURIComponent (s : String) : Option String :=
  String.mk <$> decodeUriChars s.data

/-- Percent-escape of one character, as `encodeURIComponent` produces it
for the three path-delimiter characters. -/
def escapeDelimChar (c : Char) : List Char :=
  if c = '/' then ['%', '2', 'F']
  else if c = '#' then ['%', '2', '3']
  else if c = '?' then ['%', '3', 'F']
  else [c]

/-- Modelled from the spec: the shared-library helper
`escapePathDelimiters(segment, true)` (PathUtils; the file
`shared/lib/router/utils/escape-path-delimiters.ts` is outside the
provided sources).  It percent-escapes the path delimiters `/`, `#`,
`?`, and re-escapes the already-encoded forms `%2f`, `%23`, `%3f`
(case-insensitive) by escaping their `%`. -/
def escapePathDelims : List Char → List Char
  | [] => []
  | '%' :: c1 :: c2 :: rest =>
    let lo1 := c1.toLower
    let lo2 := c2.toLower
    if (lo1 = '2' ∧ (lo2 = 'f' ∨ lo2 = '3')) ∨ (lo1 = '3' ∧ lo2 = 'f') then
      '%' :: '2' :: '5' :: c1 :: c2 :: escapePathDelims rest
    else
      '%' :: escapePathDelims (c1 :: c2 :: rest)
  | c :: rest => escapeDelimChar c ++ escapePathDelims rest

/-- `escapePathDelimiters(seg, true)` on strings. -/
def escapePathDelimiters (s : String) : String :=
  String.mk (escapePathDelims s.data)

/-- The map applied to each `/`-separated segment of the SSG cache key
(`next-server.ts` lines 1983–1994): decode, then escape path
delimiters; a decode failure is the `DecodeError` throw. -/
def encodeCacheKeySeg (seg : String) : Except ServerError String :=
  match decodeURIComponent seg with
  | none => .error .decodeError
  | some d => .ok (escapePathDelimiters d)

/-- `ssgCacheKey.split('/').map(...).join('/')`: segment-wise decoding
and re-escaping of a non-null cache key. -/
def encodeSsgCacheKey (key : String) : Except ServerError String :=
  (strIntercalate "/") <$> (strSplitOn '/' key).mapM encodeCacheKeySeg

/-- The request-derived inputs that determine the SSG cache key
(`renderToResponseWithComponents`, lines 1960–1995).  `locale` is
`query.__nextLocale` with `none` for an absent/empty (falsy) value;
`supportsDynamicHTML` is the value of `opts.supportsDynamicHTML` after
the narrowing at lines 1868–1877. -/
structure CacheKeyCtx where
  isPreviewMode : Bool
  isSSG : Bool
  minimalMode : Bool
  supportsDynamicHTML : Bool
  locale : Option String
  pathname : String
  resolvedUrlPathname : String
  queryAmp : Bool
  deriving Repr

/-- `is404Page` (line 1829). -/
def CacheKeyCtx.is404Page (c : CacheKeyCtx) : Bool := c.pathname = "/404"

/-- `is500Page` (line 1830). -/
def CacheKeyCtx.is500Page (c : CacheKeyCtx) : Bool := c.pathname = "/500"

/-- The locale piece `${locale ? `/${locale}` : ''}` of the cache key. -/
def localePart (locale : Option String) : String :=
  match locale with
  | some l => "/" ++ l
  | none => ""

/-- The raw `ssgCacheKey` value before segment decoding/escaping: lines
1960–1973, including the unconditional reassignment for the SSG `/404`
and `/500` pages. -/
def ssgCacheKeyRaw (c : CacheKeyCtx) : Option String :=
  let base : Option String :=
    if c.isPreviewMode || !c.isSSG || c.minimalMode || c.supportsDynamicHTML then
      none
    else
      some (localePart c.locale ++
        (if (c.pathname = "/" ∨ c.resolvedUrlPathname = "/") ∧ c.locale.isSome
          then "" else c.resolvedUrlPathname) ++
        (if c.queryAmp then ".amp" else ""))
  if (c.is404Page ∨ c.is500Page) ∧ c.isSSG then
    some (localePart c.locale ++ c.pathname ++
      (if c.queryAmp then ".amp" else ""))
  else base

/-- The full `ssgCacheKey` computation (lines 1960–1995): raw key, then
per-segment decode/escape of a non-null key, raising `DecodeError` on
malformed percent-encoding. -/
def computeSsgCacheKey (c : CacheKeyCtx) : Except ServerError (Option String) :=
  match ssgCacheKeyRaw c with
  | none => .ok none
  | some k => some <$> encodeSsgCacheKey k

/-- The narrowing of `opts.supportsDynamicHTML` at lines 1868–1877: a
`true` value is re-derived as the conjunction shown there, a non-`true`
value is kept. -/
def narrowSupportsDynamicHTML (supportsDynamicHTML isSSG isLikeServerless
    queryAmp minimalMode documentHasGetInitialProps : Bool) : Bool :=
  if supportsDynamicHTML then
    !isSSG && !isLikeServerless && !queryAmp && !minimalMode &&
      !documentHasGetInitialProps
  else supportsDynamicHTML

/-- Modelled from the spec: `isDynamicRoute` from
`shared/lib/router/utils` (PathUtils, "dynamic-segment
interpolation/matching"; the file is outside the provided sources).  A
route is dynamic when some `/`-delimited segment is bracketed, i.e.
matches `/\[[^/]+?\]` followed by `/` or the end. -/
def isDynamicRoute (pathname : String) : Bool :=
  ((strSplitOn '/' pathname).drop 1).any fun seg =>
    strStartsWith seg "[" && strEndsWith seg "]" && 3 ≤ strLength seg

/-- `revalidate` values surfaced by the renderer: a number of seconds,
or `false` ("cache forever until explicit invalidation"). -/
inductive Revalidate
  | num (n : Nat)
  | never
  deriving DecidableEq, Repr

/-- The redirect metadata a page declares through its data-fetching
result, as read by `handleRedirect` from
`pageData.pageProps.__N_REDIRECT*` (lines 1923–1927): destination, an
optional resolved status code, and whether `__N_REDIRECT_BASE_PATH` is
`false`. -/
structure RedirectProps where
  destination : String
  statusCode : Option Nat
  basePathFalse : Bool
  deriving DecidableEq, Repr

/-- A concrete injective stand-in for `JSON.stringify(cachedData.props)`
on the redirect metadata. -/
def serializeRedirectProps (p : RedirectProps) : String :=
  "\x7b\"destination\":\"" ++ p.destination ++ "\",\"statusCode\":" ++
    (match p.statusCode with
      | some n => toString n
      | none => "null") ++
    ",\"basePath\":" ++ (if p.basePathFalse then "false" else "true") ++ "\x7d"

/-- `ResponseCacheValue`: a produced cache value is either a redirect
signal or a rendered page.  `pageData` is represented by its JSON
serialization, so `JSON.stringify(pageData)` is the identity on this
representation. -/
inductive CachedValue
  | redirect (props : RedirectProps)
  | page (html : String) (pageData : String)
  deriving DecidableEq, Repr

/-- `ResponseCacheEntry`: `revalidate` is `none` for the absent
(`undefined`) field; `value` is `none` for the `null` "not found"
value. -/
structure CacheEntry where
  revalidate : Option Revalidate
  value : Option CachedValue
  deriving DecidableEq, Repr

/-- The outcome the external `Renderer` collaborator
(`renderToHTML` / serverless `renderReqToHTML`) reports through
`renderOpts`: the flags and values read back by `doRender` at lines
2018–2069. -/
structure RenderOutcome where
  isNotFound : Bool
  isRedirect : Bool
  hasBody : Bool
  html : String
  pageData : String
  redirectProps : RedirectProps
  revalidate : Option Revalidate
  deriving Repr

/-- `doRender` (lines 1997–2084) viewed after the render call: turn the
renderer's outcome into a cache entry; `none` models the `return null`
for a response already written directly. -/
def doRender (r : RenderOutcome) : Option CacheEntry :=
  if r.isNotFound then some ⟨r.revalidate, none⟩
  else if r.isRedirect then some ⟨r.revalidate, some (.redirect r.redirectProps)⟩
  else if r.hasBody then some ⟨r.revalidate, some (.page r.html r.pageData)⟩
  else none

/-- The `fallback` field of a prerender-manifest dynamic-route entry:
a string (fallback page path), `null`, or `false`. -/
inductive FallbackField
  | str (s : String)
  | nullVal
  | falseVal
  deriving DecidableEq, Repr

/-- `FallbackMode`, the three-valued policy `'static' | 'blocking' |
false`. -/
inductive FallbackMode
  | static
  | blocking
  | disabled
  deriving DecidableEq, Repr

/-- `getStaticPaths` fallback-mode translation (lines 1810–1822):
string → `'static'`, `null` → `'blocking'`, `false` → `false`. -/
def fallbackModeOf : FallbackField → FallbackMode
  | .str _ => .static
  | .nullVal => .blocking
  | .falseVal => .disabled

/-- `ssgCacheKey.replace(/\.amp$/, '')`. -/
def stripAmpSuffix (s : String) : String :=
  if strEndsWith s ".amp" then strDropRight s 4 else s

/-- Inputs to the producer callback passed to `this.responseCache.get`
(lines 2086–2188).  `staticPaths` is the (virtual) `getStaticPaths`
result (always `undefined` in the base server, lines 1802–1808);
`fallbackField` is the prerender-manifest entry for the page;
`renderOutcome` and `devFallbackOutcome` are the external renderer's
results for the normal render and for the development
`__nextFallback` render. -/
structure ProducerCtx where
  dev : Bool
  minimalMode : Bool
  pathname : String
  hasStaticPaths : Bool
  fallbackField : FallbackField
  staticPaths : Option (List String)
  isBotUA : Bool
  ssgCacheKey : Option String
  resSent : Bool
  isPreviewMode : Bool
  isDataReq : Bool
  queryAmp : Bool
  fallbackHtml : String
  renderOutcome : RenderOutcome
  devFallbackOutcome : RenderOutcome
  deriving Repr

/-- Which external actions the producer callback performed: whether it
invoked the renderer (`doRender`) at all, and whether it served the
prebuilt static fallback skeleton. -/
structure ProducerTrace where
  rendererInvoked : Bool
  servedFallbackHTML : Bool
  deriving DecidableEq, Repr

/-- The producer callback handed to `ResponseCache.get` (lines
2086–2188): fallback-mode resolution (including the bot promotion of
`'static'` to `'blocking'` at lines 2097–2102), the no-fallback abort,
the fallback-skeleton short-circuits, and the final render.  The
`Except` error is the thrown `NoFallbackError`. -/
def responseCacheProducer (c : ProducerCtx) (hasResolved : Bool) :
    Except ServerError (Option CacheEntry) × ProducerTrace :=
  let isProduction := !c.dev
  let isDynamicPathname := isDynamicRoute c.pathname
  let didRespond := hasResolved || c.resSent
  let staticPaths := if c.hasStaticPaths then c.staticPaths else none
  let fallbackMode0 :=
    if c.hasStaticPaths then fallbackModeOf c.fallbackField
    else FallbackMode.disabled
  let fallbackMode :=
    if fallbackMode0 = .static ∧ c.isBotUA then FallbackMode.blocking
    else fallbackMode0
  let lookupKey :=
    if c.queryAmp then stripAmpSuffix (c.ssgCacheKey.getD "")
    else c.ssgCacheKey.getD ""
  let finalRender : Except ServerError (Option CacheEntry) × ProducerTrace :=
    match doRender c.renderOutcome with
    | none => (.ok none, ⟨true, false⟩)
    | some result =>
      (.ok (some ⟨some (result.revalidate.getD (.num 1)), result.value⟩),
        ⟨true, false⟩)
  if ¬c.minimalMode ∧ fallbackMode ≠ .blocking ∧ c.ssgCacheKey.isSome ∧
      ¬didRespond ∧ ¬c.isPreviewMode ∧ isDynamicPathname ∧
      (isProduction ∨ staticPaths = none ∨
        ¬(staticPaths.getD []).contains lookupKey) then
    if (isProduction ∨ staticPaths.isSome) ∧ fallbackMode ≠ .static then
      (.error .noFallback, ⟨false, false⟩)
    else if ¬c.isDataReq then
      if isProduction then
        (.ok (some ⟨none, some (.page c.fallbackHtml "\x7b\x7d")⟩),
          ⟨false, true⟩)
      else
        match doRender c.devFallbackOutcome with
        | none => (.ok none, ⟨true, false⟩)
        | some result => (.ok (some ⟨none, result.value⟩), ⟨true, false⟩)
    else finalRender
  else finalRender

/-- Modelled from the spec: `PERMANENT_REDIRECT_STATUS` from the shared
constants file (outside the provided sources); the spec names 308 as
the permanent-redirect code. -/
def PERMANENT_REDIRECT_STATUS : Nat := 308

/-- Modelled from the spec: `getRedirectStatus` from
`lib/load-custom-routes` (outside the provided sources): the redirect's
own `statusCode` when set, else the temporary code 307 (`permanent` is
absent on page-declared redirect props). -/
def getRedirectStatus (p : RedirectProps) : Nat :=
  p.statusCode.getD 307

/-- Collapse runs of `/` into a single `/`. -/
def collapseSlashes : List Char → List Char
  | [] => []
  | '/' :: '/' :: rest => collapseSlashes ('/' :: rest)
  | c :: rest => c :: collapseSlashes rest
  termination_by l => l.length

/-- Modelled from the spec: `normalizeRepeatedSlashes` from
`shared/lib/utils` (outside the provided sources): backslashes become
slashes and repeated slashes collapse, in the part before the query
string. -/
def normalizeRepeatedSlashes (url : String) : String :=
  let parts := strSplitOn '?' url
  let noQuery := backslashToSlash (parts.headD "")
  String.mk (collapseSlashes noQuery.data) ++
    (if parts.length > 1 then "?" ++ strIntercalate "?" (parts.drop 1)
      else "")

/-- The observable per-request response state mutated by the dispatch
layer: status code, redirect headers, revalidation headers, a directly
ended body, and whether `render404` was invoked. -/
structure ResState where
  statusCode : Option Nat := none
  locationHdr : Option String := none
  refreshHdr : Option String := none
  revalidateHeadersSet : Bool := false
  bodyEnded : Option String := none
  render404Invoked : Bool := false
  deriving DecidableEq, Repr

/-- `handleRedirect` (lines 1923–1951): basePath prefixing, repeated
slash normalization, the `Refresh` header on a 308, then status code
and `Location` header, ending the response. -/
def handleRedirect (basePath : String) (props : RedirectProps)
    (st : ResState) : ResState :=
  let statusCode := getRedirectStatus props
  let dest0 := props.destination
  let dest1 :=
    if basePath ≠ "" ∧ ¬props.basePathFalse ∧ strStartsWith dest0 "/" then
      basePath ++ dest0
    else dest0
  let dest2 :=
    if strStartsWith dest1 "/" then normalizeRepeatedSlashes dest1
    else dest1
  let st1 :=
    if statusCode = PERMANENT_REDIRECT_STATUS then
      { st with refreshHdr := some ("0;url=" ++ dest2) }
    else st
  { st1 with
    statusCode := some statusCode,
    locationHdr := some dest2,
    bodyEnded := some "" }

/-- The `Cache-Control`-shaping options derived at lines 2204–2215. -/
structure RevalidateOpts where
  isPrivate : Bool
  stateful : Bool
  revalidate : Revalidate
  deriving DecidableEq, Repr

/-- A typed response payload (`ResponsePayload`). -/
inductive PayloadType
  | html
  | json
  deriving DecidableEq, Repr

/-- `ResponsePayload`: body kind, body (as the string the
`RenderResult` yields), and the revalidate options. -/
structure ResponsePayload where
  type : PayloadType
  body : String
  revalidateOpts : Option RevalidateOpts := none
  deriving DecidableEq, Repr

/-- The flags `handleCacheEntry` reads besides the entry itself. -/
structure EntryCtx where
  dev : Bool
  hasServerProps : Bool
  isDataReq : Bool
  isPreviewMode : Bool
  is404Page : Bool
  isSSG : Bool
  basePath : String
  deriving Repr

/-- Lines 2191–2256: reconcile the value returned by
`responseCache.get` with the response — the missing-entry invariant
error, the not-found 404/JSON paths, the redirect paths, and the
page-payload result. -/
def handleCacheEntry (c : EntryCtx) (ssgCacheKey : Option String)
    (entry : Option CacheEntry) (st : ResState) :
    Except ServerError (Option ResponsePayload) × ResState :=
  match entry with
  | none =>
    if ssgCacheKey.isSome then (.error .generic, st) else (.ok none, st)
  | some ⟨revalidate, value⟩ =>
    let rOpts : Option RevalidateOpts :=
      match revalidate with
      | some r =>
        if ¬c.dev ∨ (c.hasServerProps ∧ ¬c.isDataReq) then
          some ⟨c.isPreviewMode ∨ (c.is404Page ∧ value.isSome), !c.isSSG, r⟩
        else none
      | none => none
    match value with
    | none =>
      let st1 := if rOpts.isSome then
          { st with revalidateHeadersSet := true } else st
      if c.isDataReq then
        (.ok none, { st1 with
          statusCode := some 404,
          bodyEnded := some "\x7b\"notFound\":true\x7d" })
      else
        (.ok none, { st1 with render404Invoked := true })
    | some (.redirect props) =>
      if c.isDataReq then
        (.ok (some ⟨.json, serializeRedirectProps props, rOpts⟩), st)
      else
        (.ok none, handleRedirect c.basePath props st)
    | some (.page html pageData) =>
      (.ok (some ⟨if c.isDataReq then .json else .html,
        if c.isDataReq then pageData else html, rOpts⟩), st)

/-- Modelled from the spec: `STATIC_STATUS_PAGES` from the shared
constants file (outside the provided sources); per §4.5 the static
status pages are the `/500` page. -/
def STATIC_STATUS_PAGES : List String := ["/500"]

/-- `parseInt(pathname.substr(1), 10)` for a status page path. -/
def statusOfPage (pathname : String) : Nat :=
  (strToNat (strDrop pathname 1)).getD 0

/-- Modelled from the spec (§4.3, §5): `ResponseCache.get` viewed from a
single request, sequentially — the `response-cache.ts` implementation is
outside the provided sources.  A `null` key invokes the producer
directly and stores nothing; a fresh stored entry is returned without
invoking the producer; a stale entry is served while the producer runs
with `hasResolved = true` and its successful result is stored; a miss
runs the producer with `hasResolved = false` and stores its successful
result.  (The cross-request coalescing behaviour is modelled separately
by `CoalesceState`.) -/
def responseCacheGet (key : Option String) (cachedEntry : Option CacheEntry)
    (isStale : Bool)
    (producer : Bool → Except ServerError (Option CacheEntry) × ProducerTrace) :
    Except ServerError (Option CacheEntry) × ProducerTrace ×
      Option (String × CacheEntry) :=
  match key with
  | none => ((producer false).1, (producer false).2, none)
  | some k =>
    match cachedEntry, isStale with
    | some e, false => (.ok (some e), ⟨false, false⟩, none)
    | some e, true =>
      (.ok (some e), (producer true).2,
        match (producer true).1 with
        | .ok (some e2) => some (k, e2)
        | _ => none)
    | none, _ =>
      ((producer false).1, (producer false).2,
        match (producer false).1 with
        | .ok (some e2) => some (k, e2)
        | _ => none)

/-- All request- and page-derived inputs of
`renderToResponseWithComponents` (lines 1825–2256).
`queryNextDataReq` is the raw `query._nextDataReq` flag;
`hasPreviewData` is whether `tryGetPreviewData` finds preview
credentials; `componentIsStaticString` is the prebuilt HTML when
`typeof components.Component === 'string'`; `cachedEntry`/`isStale`
describe the incremental-cache state for the computed key. -/
structure WithComponentsCtx where
  dev : Bool
  minimalMode : Bool
  pathname : String
  locale : Option String
  resolvedUrlPathname : String
  queryAmp : Bool
  getStaticProps : Bool
  hasServerProps : Bool
  hasStaticPaths : Bool
  isLikeServerless : Bool
  documentHasGetInitialProps : Bool
  supportsDynamicHTML0 : Bool
  hasPreviewData : Bool
  queryNextDataReq : Bool
  componentIsStaticString : Option String
  fallbackField : FallbackField
  staticPaths : Option (List String)
  isBotUA : Bool
  resSent : Bool
  fallbackHtml : String
  renderOutcome : RenderOutcome
  devFallbackOutcome : RenderOutcome
  cachedEntry : Option CacheEntry
  isStale : Bool
  basePath : String
  deriving Repr

/-- What `renderToResponseWithComponents` did: its return value or
thrown error, the response state, the producer's external actions, and
what (if anything) was committed to the response cache. -/
structure WithComponentsOut where
  result : Except ServerError (Option ResponsePayload)
  resState : ResState
  trace : ProducerTrace
  stored : Option (String × CacheEntry)
  deriving Repr

/-- `isDataReq` as derived at line 1841. -/
def WithComponentsCtx.isDataReq (c : WithComponentsCtx) : Bool :=
  c.queryNextDataReq ∧ (c.getStaticProps ∨ c.hasServerProps)

/-- `isPreviewMode` as derived at lines 1889–1892. -/
def WithComponentsCtx.isPreviewMode (c : WithComponentsCtx) : Bool :=
  (c.hasServerProps ∨ c.getStaticProps) ∧ c.hasPreviewData

/-- The `CacheKeyCtx` a `WithComponentsCtx` induces (after the
`supportsDynamicHTML` narrowing). -/
def wcKeyCtx (c : WithComponentsCtx) : CacheKeyCtx :=
  { isPreviewMode := c.isPreviewMode
    isSSG := c.getStaticProps
    minimalMode := c.minimalMode
    supportsDynamicHTML := narrowSupportsDynamicHTML c.supportsDynamicHTML0
      c.getStaticProps c.isLikeServerless c.queryAmp c.minimalMode
      c.documentHasGetInitialProps
    locale := c.locale
    pathname := c.pathname
    resolvedUrlPathname := c.resolvedUrlPathname
    queryAmp := c.queryAmp }

/-- The `ProducerCtx` a `WithComponentsCtx` induces for a computed
key. -/
def wcProducerCtx (c : WithComponentsCtx) (ssgCacheKey : Option String) :
    ProducerCtx :=
  { dev := c.dev
    minimalMode := c.minimalMode
    pathname := c.pathname
    hasStaticPaths := c.hasStaticPaths
    fallbackField := c.fallbackField
    staticPaths := c.staticPaths
    isBotUA := c.isBotUA
    ssgCacheKey := ssgCacheKey
    resSent := c.resSent
    isPreviewMode := c.isPreviewMode
    isDataReq := c.isDataReq
    queryAmp := c.queryAmp
    fallbackHtml := c.fallbackHtml
    renderOutcome := c.renderOutcome
    devFallbackOutcome := c.devFallbackOutcome }

/-- The `EntryCtx` a `WithComponentsCtx` induces. -/
def wcEntryCtx (c : WithComponentsCtx) : EntryCtx :=
  { dev := c.dev
    hasServerProps := c.hasServerProps
    isDataReq := c.isDataReq
    isPreviewMode := c.isPreviewMode
    is404Page := c.pathname = "/404"
    isSSG := c.getStaticProps
    basePath := c.basePath }

/-- `renderToResponseWithComponents` (lines 1825–2256): status-code
fixups for `/404` and status pages, the static-string page
short-circuit, `supportsDynamicHTML` narrowing, preview detection,
cache-key computation (which may throw `DecodeError`),
`responseCache.get` around the producer, and cache-entry
reconciliation. -/
def renderToResponseWithComponents (c : WithComponentsCtx) (st : ResState) :
    WithComponentsOut :=
  let is404Page := c.pathname = "/404"
  let st1 := if is404Page ∧ ¬c.isDataReq then
      { st with statusCode := some 404 } else st
  let st2 := if STATIC_STATUS_PAGES.contains c.pathname then
      { st1 with statusCode := some (statusOfPage c.pathname) } else st1
  match c.componentIsStaticString with
  | some staticHtml =>
    ⟨.ok (some ⟨.html, staticHtml, none⟩), st2, ⟨false, false⟩, none⟩
  | none =>
    match computeSsgCacheKey (wcKeyCtx c) with
    | .error e => ⟨.error e, st2, ⟨false, false⟩, none⟩
    | .ok ssgCacheKey =>
      let out := responseCacheGet ssgCacheKey c.cachedEntry
        c.isStale (responseCacheProducer (wcProducerCtx c ssgCacheKey))
      match out.1 with
      | .error e => ⟨.error e, st2, out.2.1, out.2.2⟩
      | .ok entry =>
        let he := handleCacheEntry (wcEntryCtx c) ssgCacheKey entry st2
        ⟨he.1, he.2, out.2.1, out.2.2⟩

/-- The outcome of trying one logical page inside `renderToResponse`:
`findPageComponents` found nothing, or it found components and
rendering them produced a payload or threw. -/
inductive PageAttempt
  | notFound
  | attempt (r : Except ServerError (Option ResponsePayload))

/-- The page-resolution system `renderToResponse` dispatches over:
per-page render outcomes and the dynamic route table (page name and
matcher), in its sorted order. -/
structure DispatchSystem where
  pageOutcome : String → PageAttempt
  dynRoutes : List (String × (String → Bool))

/-- What `renderToResponse` did with the request: returned a payload
rendered for a given logical page, invoked `renderErrorToResponse` with
a status and error, or rethrew an error to its caller. -/
inductive DispatchResult
  | payload (page : String) (p : Option ResponsePayload)
  | errorResponse (status : Nat) (err : Option ServerError)
  | thrown (e : ServerError)
  deriving DecidableEq, Repr

/-- The dispatch outcome together with the dynamic-route pages whose
matchers were consulted. -/
structure DispatchOut where
  result : DispatchResult
  triedDynamic : List String
  deriving DecidableEq, Repr

/-- The catch block of `renderToResponse` (lines 2320–2345): a bubbled
`NoFallbackError` is rethrown; `DecodeError` yields status 400 and an
error render; a `WrappedBuildError` yields a 500 error render of the
inner error without rethrow; any other error yields a 500 error render,
rethrown instead in minimal or development mode. -/
def dispatchCatch (minimalMode dev bubble : Bool) (e : ServerError) :
    DispatchResult :=
  if e = .noFallback ∧ bubble then .thrown e
  else if e = .decodeError then .errorResponse 400 (some .decodeError)
  else if e = .wrappedBuild then .errorResponse 500 (some .wrappedBuild)
  else if minimalMode ∨ dev then .thrown e
  else .errorResponse 500 (some e)

/-- The dynamic-route scan of `renderToResponse` (lines 2281–2319):
try each descriptor in order; on a match, resolve and render that page;
a `NoFallbackError` continues the scan unless bubbling; any other
thrown error goes to the catch block; an exhausted scan sets status 404
and renders the error page with a `null` error (lines 2346–2347). -/
def scanDynRoutes (sys : DispatchSystem) (minimalMode dev bubble : Bool)
    (pathname : String) :
    List (String × (String → Bool)) → List String → DispatchOut
  | [], tried => ⟨.errorResponse 404 none, tried.reverse⟩
  | (page, m) :: rest, tried =>
    if m pathname then
      match sys.pageOutcome page with
      | .notFound => scanDynRoutes sys minimalMode dev bubble pathname rest
          (page :: tried)
      | .attempt (.ok p) => ⟨.payload page p, (page :: tried).reverse⟩
      | .attempt (.error .noFallback) =>
        if bubble then
          ⟨dispatchCatch minimalMode dev bubble .noFallback,
            (page :: tried).reverse⟩
        else
          scanDynRoutes sys minimalMode dev bubble pathname rest (page :: tried)
      | .attempt (.error e) =>
        ⟨dispatchCatch minimalMode dev bubble e, (page :: tried).reverse⟩
    else
      scanDynRoutes sys minimalMode dev bubble pathname rest (page :: tried)

/-- `renderToResponse` (lines 2259–2348): exact page match first, then
the dynamic-route scan, with `NoFallbackError` caught at this dispatch
boundary (unless `_nextBubbleNoFallback` asks it to bubble). -/
def renderToResponse (sys : DispatchSystem) (minimalMode dev bubble : Bool)
    (pathname : String) : DispatchOut :=
  match sys.pageOutcome pathname with
  | .attempt (.ok p) => ⟨.payload pathname p, []⟩
  | .attempt (.error .noFallback) =>
    if bubble then ⟨dispatchCatch minimalMode dev bubble .noFallback, []⟩
    else scanDynRoutes sys minimalMode dev bubble pathname sys.dynRoutes []
  | .attempt (.error e) => ⟨dispatchCatch minimalMode dev bubble e, []⟩
  | .notFound => scanDynRoutes sys minimalMode dev bubble pathname
      sys.dynRoutes []

/-- The inputs of `renderErrorToResponse` (lines 2397–2495): the status
code on entry, which error pages resolve, the render outcome for each
candidate status page, and the development-only fallback error
components with their render outcome. -/
structure ErrorRenderSys where
  statusCode : Option Nat
  has404Page : Bool
  has500Page : Bool
  hasErrorPage : Bool
  renderResult : String → Except ServerError (Option ResponsePayload)
  hasFallbackComponents : Bool
  fallbackRenderResult : Except ServerError (Option ResponsePayload)

/-- `renderErrorToResponse` (lines 2397–2495): select `/404`, a static
status page, or `/_error`; render it (a `NoFallbackError` there becomes
an invariant error); on any failure set status 500 and render the
fallback error components when available, else return the hardcoded
`Internal Server Error` HTML body. -/
def renderErrorToResponse (sys : ErrorRenderSys) (st : ResState) :
    Except ServerError (Option ResponsePayload) × ResState :=
  let is404 := sys.statusCode = some 404
  let statusPageName := "/" ++ toString (sys.statusCode.getD 200)
  let selected : Option String :=
    if is404 ∧ sys.has404Page then some "/404"
    else if STATIC_STATUS_PAGES.contains statusPageName ∧ sys.has500Page then
      some statusPageName
    else if sys.hasErrorPage then some "/_error"
    else none
  let attempt : Except ServerError (Option ResponsePayload) :=
    match selected with
    | none => .error .generic
    | some page =>
      match sys.renderResult page with
      | .error .noFallback => .error .generic
      | r => r
  match attempt with
  | .ok p => (.ok p, st)
  | .error _ =>
    let st1 : ResState := { st with statusCode := some 500 }
    if sys.hasFallbackComponents then
      (sys.fallbackRenderResult, st1)
    else
      (.ok (some ⟨.html, "Internal Server Error", none⟩), st1)

/-- What `router.execute` reported back to `run`. -/
inductive RouterOutcome
  | matched
  | unmatched
  | threwDecode
  | threwOther
  deriving DecidableEq, Repr

/-- What `run` did with the request. -/
inductive RunResult
  | handled
  | render404Invoked
  | errorRendered (status : Nat)
  | rethrown
  deriving DecidableEq, Repr

/-- `run` (lines 1604–1625): a handled route finishes; a `DecodeError`
from the router becomes status 400 plus an error render; other errors
are rethrown; an unmatched request gets `render404`. -/
def runHandler : RouterOutcome → RunResult
  | .matched => .handled
  | .unmatched => .render404Invoked
  | .threwDecode => .errorRendered 400
  | .threwOther => .rethrown

/-- Modelled from the spec: `removePathTrailingSlash` from
`client/normalize-trailing-slash` (outside the provided sources,
"trailing-slash normalization" in PathUtils): drop a trailing slash
except on the root path. -/
def removePathTrailingSlash (path : String) : String :=
  if path = "/" then path
  else if strEndsWith path "/" then strDropRight path 1
  else path

/-- Result of locale detection on a pathname. -/
structure LocalePathResult where
  pathname : String
  detectedLocale : Option String
  deriving DecidableEq, Repr

/-- Modelled from the spec: `normalizeLocalePath` from
`shared/lib/i18n/normalize-locale-path` (outside the provided sources,
"locale detection/stripping" in PathUtils): when the first path segment
equals a configured locale case-insensitively, remove that segment and
report the locale. -/
def normalizeLocalePath (pathname : String) (locales : Option (List String)) :
    LocalePathResult :=
  let parts := strSplitOn '/' pathname
  match (locales.getD []).find?
      (fun l => strToLower (parts.getD 1 "") = strToLower l) with
  | some l =>
    let joined := strIntercalate "/" (parts.take 1 ++ parts.drop 2)
    ⟨if joined = "" then "/" else joined, some l⟩
  | none => ⟨pathname, none⟩

/-- Modelled from the spec: `getRouteFromAssetPath` from
`shared/lib/router/utils` (outside the provided sources): strip the
asset extension and denormalize `/index` paths. -/
def getRouteFromAssetPath (assetPath : String) (ext : String) : String :=
  let p0 := backslashToSlash assetPath
  let p1 :=
    if ext ≠ "" ∧ strEndsWith p0 ext then strDropRight p0 (strLength ext)
    else p0
  if strStartsWith p1 "/index/" ∧ ¬isDynamicRoute p1 then strDrop p1 6
  else if p1 = "/index" then "/"
  else p1

/-- A domain entry of the i18n configuration. -/
structure DomainLocale where
  domain : String
  defaultLocale : String
  deriving DecidableEq, Repr

/-- The i18n configuration consumed by the server. -/
structure I18NConfig where
  locales : List String
  defaultLocale : String
  domains : List DomainLocale
  deriving Repr

/-- Modelled from the spec: `detectDomainLocale` from
`shared/lib/i18n/detect-domain-locale` (outside the provided sources):
find the configured domain entry for the request's hostname. -/
def detectDomainLocale (domains : List DomainLocale)
    (hostname : Option String) : Option DomainLocale :=
  domains.find? (fun d => some (strToLower d.domain) = hostname)

/-- What the `/_next/data` catch-all route did: a 404, or a render of
the resolved page with the `_nextDataReq` flag and locale query
values. -/
inductive DataRouteAction
  | render404
  | render (pathname : String) (nextDataReq : Bool)
      (localeQ : Option String) (defaultLocaleQ : Option String)
  deriving DecidableEq, Repr

/-- The `_next/data catchall` route handler (lines 836–909): 404 unless
the first segment is the buildId; strip it; 404 unless the last segment
ends in `.json`; recreate the page pathname; under i18n detect the
locale (404 when none is present); then render with `_nextDataReq`
set. -/
def nextDataCatchall (buildId : String) (i18n : Option I18NConfig)
    (host : Option String) (path : List String) : DataRouteAction :=
  if path.isEmpty ∨ path.head? ≠ some buildId then .render404
  else
    let rest := path.tail
    match rest.getLast? with
    | none => .render404
    | some lastParam =>
      if ¬strEndsWith lastParam ".json" then .render404
      else
        let pathname0 := "/" ++ strIntercalate "/" rest
        let pathname1 := getRouteFromAssetPath pathname0 ".json"
        match i18n with
        | none => .render pathname1 true none none
        | some cfg =>
          let hostname := host.map (fun h => strToLower ((strSplitOn ':' h).headD h))
          let lpr := normalizeLocalePath pathname1 (some cfg.locales)
          let domainDefault :=
            (detectDomainLocale cfg.domains hostname).map (·.defaultLocale)
          let defaultLocaleQ := domainDefault.getD cfg.defaultLocale
          match lpr.detectedLocale with
          | some l => .render lpr.pathname true (some l) (some defaultLocaleQ)
          | none => .render404

/-- The pathname/locale normalization at the head of the
`Catchall render` route (lines 1322–1341): trailing-slash removal, then
locale stripping into `query.__nextLocale`. -/
def catchAllRouteNormalize (i18n : Option I18NConfig) (pathname0 : String) :
    String × Option String :=
  let pathname := removePathTrailingSlash pathname0
  match i18n with
  | some cfg =>
    let lpr := normalizeLocalePath pathname (some cfg.locales)
    match lpr.detectedLocale with
    | some l => (lpr.pathname, some l)
    | none => (pathname, none)
  | none => (pathname, none)

/-- One middleware descriptor as `runMiddleware` sees it: its path
matcher, whether its edge bundle is available (`hasMiddleware`),
whether it is named in `x-middleware-subrequest`, and whether its
response carries the `x-middleware-next` continue marker. -/
structure MiddlewareDesc where
  page : String
  accepts : String → Bool
  available : Bool
  isSubrequest : Bool
  continuesChain : Bool

/-- The non-null result of the middleware chain: a subrequest was
short-circuited with `NextResponse.next()`, or a middleware actually
ran (with or without the continue marker). -/
inductive MwResult
  | subrequestNext
  | ran (page : String) (continues : Bool)
  deriving DecidableEq, Repr

/-- The middleware loop of `runMiddleware` (lines 681–744): skip
unavailable bundles, short-circuit subrequests to `NextResponse.next()`,
otherwise run the edge function; stop as soon as a response lacks
`x-middleware-next`. -/
def runMwLoop (pathname : String) :
    List MiddlewareDesc → Option MwResult → Option MwResult
  | [], acc => acc
  | mw :: rest, acc =>
    if mw.accepts pathname then
      if ¬mw.available then runMwLoop pathname rest acc
      else if mw.isSubrequest then
        runMwLoop pathname rest (some .subrequestNext)
      else if mw.continuesChain then
        runMwLoop pathname rest (some (.ran mw.page true))
      else some (.ran mw.page false)
    else runMwLoop pathname rest acc

/-- `runMiddleware` (lines 653–755): the loop over sorted middleware,
then the null-result handling at lines 746–755 — a null result renders
a 404 before returning.  The second component records whether
`render404` was invoked. -/
def runMiddleware (pathname : String) (mws : List MiddlewareDesc) :
    Option MwResult × Bool :=
  let r := runMwLoop pathname mws none
  (r, r.isNone)

/-- What the `middleware catchall` route head decided (lines
1175–1215): fall through without running any middleware, terminate
after a null chain result (404 already rendered inside
`runMiddleware`), or continue into header-driven result processing. -/
inductive CatchAllMwAction
  | fallthroughNoMiddleware
  | terminatedNullResult
  | processResult (r : MwResult)
  deriving DecidableEq, Repr

/-- The head of the `middleware catchall` route function: when no
middleware matcher accepts the pathname it returns
`{ finished: false }` immediately (lines 1187–1189); otherwise it runs
the chain and finishes on a null result (lines 1213–1215).  The second
component records whether `render404` was invoked. -/
def catchAllMiddlewareHead (mws : List MiddlewareDesc) (pathname : String) :
    CatchAllMwAction × Bool :=
  if ¬mws.any (fun m => m.accepts pathname) then
    (.fallthroughNoMiddleware, false)
  else
    match runMiddleware pathname mws with
    | (none, r404) => (.terminatedNullResult, r404)
    | (some r, _) => (.processResult r, false)

/-- An event of the coalescing response cache: a caller arrives wanting
`key`, or the in-flight production for `key` completes. -/
inductive CacheEv
  | arrive (caller : Nat) (key : String)
  | complete (key : String)
  deriving DecidableEq, Repr

/-- Modelled from the spec (§4.3, §5, `response-cache.ts` outside the
provided sources): the shared state of the coalescing cache.
`inFlight` maps each key to the id of its in-flight production;
`invoked` logs every producer invocation `(key, production id)`;
`assigned` logs, per caller, the production whose result that caller
awaits. -/
structure CoalesceState where
  inFlight : List (String × Nat) := []
  nextProd : Nat := 0
  invoked : List (String × Nat) := []
  assigned : List (Nat × Nat) := []
  deriving Repr

/-- First-match association lookup. -/
def alookup {α β : Type} [DecidableEq α] (k : α) : List (α × β) → Option β
  | [] => none
  | (a, b) :: rest => if a = k then some b else alookup k rest

/-- Modelled from the spec (§4.3): one step of the coalescing cache.  An
arriving caller joins the in-flight production for its key when one
exists; otherwise it starts (and is assigned) a fresh production, which
is the only producer invocation.  A completion removes the key's
in-flight production. -/
def coalesceStep (s : CoalesceState) : CacheEv → CoalesceState
  | .arrive c k =>
    match alookup k s.inFlight with
    | some p => { s with assigned := (c, p) :: s.assigned }
    | none =>
      { s with
        inFlight := (k, s.nextProd) :: s.inFlight,
        nextProd := s.nextProd + 1,
        invoked := (k, s.nextProd) :: s.invoked,
        assigned := (c, s.nextProd) :: s.assigned }
  | .complete k => { s with inFlight := s.inFlight.filter (fun e => e.1 ≠ k) }

/-- Run a trace of cache events from a state. -/
def coalesceRun (s : CoalesceState) (evs : List CacheEv) : CoalesceState :=
  evs.foldl coalesceStep s

/-- The number of producer invocations for `k` so far. -/
def prodCount (s : CoalesceState) (k : String) : Nat :=
  (s.invoked.filter (fun e => e.1 = k)).length

/-- The production a caller most recently awaited. -/
def assignedTo (s : CoalesceState) (c : Nat) : Option Nat :=
  alookup c s.assigned

/-! ## Claim theorems -/

/-- The cache-key context of a preview-mode request for the SSG `/404`
page. -/
def previewSsg404Ctx : CacheKeyCtx :=
  { isPreviewMode := true
    isSSG := true
    minimalMode := false
    supportsDynamicHTML := false
    locale := none
    pathname := "/404"
    resolvedUrlPathname := "/404"
    queryAmp := false }

/-- C3 counterexample: a preview-mode request — one the claim says must
never be cached — to the SSG `/404` page yields the non-null cache key
`"/404"`, because lines 1969–1973 unconditionally reassign the key for
the SSG `/404`/`/500` pages. -/
theorem ssgCacheKey_preview_404_not_null :
    previewSsg404Ctx.isPreviewMode = true ∧
    computeSsgCacheKey previewSsg404Ctx = .ok (some "/404") ∧
    computeSsgCacheKey previewSsg404Ctx ≠ .ok none := by
  refine ⟨rfl, rfl, ?_⟩
  intro h
  rw [show computeSsgCacheKey previewSsg404Ctx = .ok (some "/404") from rfl]
    at h
  exact Option.noConfusion (Except.ok.inj h)

/-- C3 (amended): for a request in preview mode, or to a non-SSG page,
or in minimal serving mode, or with dynamic HTML in effect, the computed
`ssgCacheKey` is null — except for the SSG `/404` and `/500` pages,
whose key is always computed — and a null key makes
`ResponseCache.get` call the producer directly and store nothing. -/
theorem ssgCacheKey_null_never_cached (c : CacheKeyCtx)
    (hcond : (c.isPreviewMode || !c.isSSG || c.minimalMode ||
      c.supportsDynamicHTML) = true)
    (hnot : ¬((c.pathname = "/404" ∨ c.pathname = "/500") ∧ c.isSSG = true)) :
    computeSsgCacheKey c = .ok none ∧
    ∀ (cached : Option CacheEntry) (stale : Bool)
      (producer : Bool → Except ServerError (Option CacheEntry) × ProducerTrace),
      (responseCacheGet none cached stale producer).1 = (producer false).1 ∧
      (responseCacheGet none cached stale producer).2.2 = none := by
  constructor
  · have h2 : ¬(((c.is404Page : Prop) ∨ (c.is500Page : Prop)) ∧
        (c.isSSG : Prop)) := by
      simpa [CacheKeyCtx.is404Page, CacheKeyCtx.is500Page] using hnot
    have hraw : ssgCacheKeyRaw c = none := by
      unfold ssgCacheKeyRaw
      simp only [if_neg h2]
      rw [if_pos hcond]
    unfold computeSsgCacheKey
    rw [hraw]
  · intro cached stale producer
    exact ⟨rfl, rfl⟩

/-- A concrete non-SSG request context. -/
def nonSsgKeyCtx : CacheKeyCtx :=
  { isPreviewMode := false
    isSSG := false
    minimalMode := false
    supportsDynamicHTML := true
    locale := none
    pathname := "/about"
    resolvedUrlPathname := "/about"
    queryAmp := false }

/-- Witness for `ssgCacheKey_null_never_cached` at a concrete non-SSG
request. -/
theorem ssgCacheKey_null_never_cached_witness :
    computeSsgCacheKey nonSsgKeyCtx = .ok none ∧
    ∀ (cached : Option CacheEntry) (stale : Bool)
      (producer : Bool → Except ServerError (Option CacheEntry) × ProducerTrace),
      (responseCacheGet none cached stale producer).1 = (producer false).1 ∧
      (responseCacheGet none cached stale producer).2.2 = none :=
  ssgCacheKey_null_never_cached nonSsgKeyCtx (by decide) (by decide)

/-- C10: when the prerender manifest gives fallback mode `'static'`
(a string `fallback` field) but the request's user agent is a bot, the
producer behaves exactly as it would with fallback mode `'blocking'`:
it never serves the prebuilt fallback skeleton, never raises
`NoFallbackError`, and renders the page inline. -/
theorem bot_promotes_static_fallback_to_blocking (c : ProducerCtx)
    (hasResolved : Bool) (s : String)
    (hsp : c.hasStaticPaths = true) (hf : c.fallbackField = .str s)
    (hbot : c.isBotUA = true) :
    responseCacheProducer c hasResolved =
      responseCacheProducer { c with fallbackField := .nullVal } hasResolved ∧
    (responseCacheProducer c hasResolved).2.servedFallbackHTML = false ∧
    (responseCacheProducer c hasResolved).2.rendererInvoked = true ∧
    (responseCacheProducer c hasResolved).1 ≠ .error .noFallback := by
  refine ⟨?_, ?_, ?_, ?_⟩ <;>
    unfold responseCacheProducer <;>
    simp [hsp, hf, hbot, fallbackModeOf] <;>
    cases h : doRender c.renderOutcome <;> simp [h]

/-- C6: a cached redirect value becomes a JSON payload describing the
redirect for a data request (the response state is untouched: no 3xx
status, no `Location`), and an actual 3xx response with `Location` set
(plus `Refresh` exactly when the status is the permanent-redirect code
308) for a navigation request. -/
theorem redirect_value_json_vs_http (c : EntryCtx) (key : Option String)
    (props : RedirectProps) (rev : Option Revalidate) (st : ResState)
    (hrefresh : st.refreshHdr = none)
    (hval : ∀ n, props.statusCode = some n → 300 ≤ n ∧ n < 400) :
    (c.isDataReq = true →
      ∃ ropts,
        handleCacheEntry c key (some ⟨rev, some (.redirect props)⟩) st =
          (.ok (some ⟨.json, serializeRedirectProps props, ropts⟩), st)) ∧
    (c.isDataReq = false →
      (handleCacheEntry c key (some ⟨rev, some (.redirect props)⟩) st).1 =
        .ok none ∧
      (handleCacheEntry c key (some ⟨rev, some (.redirect props)⟩)
          st).2.statusCode = some (getRedirectStatus props) ∧
      300 ≤ getRedirectStatus props ∧ getRedirectStatus props < 400 ∧
      (handleCacheEntry c key (some ⟨rev, some (.redirect props)⟩)
          st).2.locationHdr ≠ none ∧
      (((handleCacheEntry c key (some ⟨rev, some (.redirect props)⟩)
          st).2.refreshHdr ≠ none) ↔ getRedirectStatus props = 308)) := by
  have hbound : 300 ≤ getRedirectStatus props ∧ getRedirectStatus props < 400 := by
    unfold getRedirectStatus
    cases hsc : props.statusCode with
    | none => simp
    | some n => simpa using hval n hsc
  constructor
  · intro hd
    refine ⟨?_, ?_⟩
    · exact
        match rev with
        | some r =>
          if ¬c.dev ∨ (c.hasServerProps ∧ ¬c.isDataReq) then
            some ⟨c.isPreviewMode ∨ (c.is404Page ∧ True), !c.isSSG, r⟩
          else none
        | none => none
    · unfold handleCacheEntry
      simp [hd]
  · intro hd
    have hmain : handleCacheEntry c key (some ⟨rev, some (.redirect props)⟩)
        st = (.ok none, handleRedirect c.basePath props st) := by
      unfold handleCacheEntry
      simp [hd]
    rw [hmain]
    refine ⟨rfl, ?_, hbound.1, hbound.2, ?_, ?_⟩
    · unfold handleRedirect
      by_cases h308 : getRedirectStatus props = PERMANENT_REDIRECT_STATUS <;>
        simp [h308]
    · unfold handleRedirect
      by_cases h308 : getRedirectStatus props = PERMANENT_REDIRECT_STATUS <;>
        simp [h308]
    · unfold handleRedirect
      by_cases h308 : getRedirectStatus props = PERMANENT_REDIRECT_STATUS <;>
        simp [PERMANENT_REDIRECT_STATUS] at h308 <;>
        simp [h308, hrefresh, PERMANENT_REDIRECT_STATUS]

/-- C9: when rendering the selected error page itself fails — whatever
error it fails with — and no fallback error components exist,
`renderErrorToResponse` degrades to the hardcoded
`Internal Server Error` HTML body with status 500, without recursing
into further error rendering. -/
theorem error_page_failure_degrades (sys : ErrorRenderSys) (st : ResState)
    (hfail : ∀ p, ∃ err, sys.renderResult p = .error err)
    (hfb : sys.hasFallbackComponents = false) :
    renderErrorToResponse sys st =
      (.ok (some ⟨.html, "Internal Server Error", none⟩),
        { st with statusCode := some 500 }) := by
  unfold renderErrorToResponse
  dsimp only
  split
  · next p hp =>
    exfalso
    split at hp
    · exact Except.noConfusion hp
    · split at hp
      · exact Except.noConfusion hp
      · rename_i d heq r hne
        obtain ⟨e, he⟩ := hfail d
        rw [he] at hp
        exact Except.noConfusion hp
  · simp [hfb]

/-- A middleware whose matcher accepts every path but whose edge bundle
is unavailable. -/
def unavailableMw : MiddlewareDesc :=
  { page := "/mw"
    accepts := fun _ => true
    available := false
    isSubrequest := false
    continuesChain := true }

/-- C7 counterexample: a request matched by one middleware whose edge
bundle is unavailable.  No middleware produces a result — the chain
result is null — yet the default catch-all terminates the request with
`finished: true` after `runMiddleware` renders a 404 (line 747), instead
of falling through to normal page rendering. -/
theorem middleware_null_result_renders_404 :
    (runMiddleware "/x" [unavailableMw]).1 = none ∧
    (runMiddleware "/x" [unavailableMw]).2 = true ∧
    catchAllMiddlewareHead [unavailableMw] "/x" =
      (.terminatedNullResult, true) :=
  ⟨rfl, rfl, rfl⟩

/-- C7 (amended): for every request whose path no middleware matcher
accepts, the default catch-all returns `{ finished: false }` without
invoking the chain at all, falling through to normal page rendering with
no 404; and whenever `runMiddleware` is invoked and its chain result is
null, it renders a 404 before returning. -/
theorem no_matching_middleware_falls_through (mws : List MiddlewareDesc)
    (pathname : String)
    (hnone : ∀ mw ∈ mws, mw.accepts pathname = false) :
    catchAllMiddlewareHead mws pathname = (.fallthroughNoMiddleware, false) ∧
    (runMiddleware pathname mws).1 = none ∧
    ∀ (mws2 : List MiddlewareDesc) (pn2 : String),
      (runMiddleware pn2 mws2).1 = none →
      (runMiddleware pn2 mws2).2 = true := by
  have hloop : ∀ (l : List MiddlewareDesc) (acc : Option MwResult),
      (∀ mw ∈ l, mw.accepts pathname = false) →
      runMwLoop pathname l acc = acc := by
    intro l
    induction l with
    | nil => intro acc _; rfl
    | cons hd tl ih =>
      intro acc h
      have hhd := h hd (List.mem_cons_self hd tl)
      unfold runMwLoop
      simp only [hhd]
      simp only [Bool.false_eq_true, if_false]
      exact ih acc (fun mw hm => h mw (List.mem_cons_of_mem hd hm))
  refine ⟨?_, ?_, ?_⟩
  · have hany : mws.any (fun m => m.accepts pathname) = false := by
      rw [List.any_eq_false]
      intro mw hm
      simp [hnone mw hm]
    unfold catchAllMiddlewareHead
    simp [hany]
  · have : (runMiddleware pathname mws).1 = runMwLoop pathname mws none := rfl
    rw [this, hloop mws none hnone]
  · intro mws2 pn2 h
    have h2 : (runMiddleware pn2 mws2).2 =
        (runMiddleware pn2 mws2).1.isNone := rfl
    rw [h2, h]
    rfl

/-- A middleware that matches only the path `/admin`. -/
def adminOnlyMw : MiddlewareDesc :=
  { page := "/admin"
    accepts := fun p => p = "/admin"
    available := true
    isSubrequest := false
    continuesChain := false }

/-- Witness for `no_matching_middleware_falls_through`: a request to
`/blog` when the only middleware matches `/admin`. -/
theorem no_matching_middleware_falls_through_witness :
    catchAllMiddlewareHead [adminOnlyMw] "/blog" =
      (.fallthroughNoMiddleware, false) ∧
    (runMiddleware "/blog" [adminOnlyMw]).1 = none ∧
    ∀ (mws2 : List MiddlewareDesc) (pn2 : String),
      (runMiddleware pn2 mws2).1 = none →
      (runMiddleware pn2 mws2).2 = true :=
  no_matching_middleware_falls_through [adminOnlyMw] "/blog"
    (by intro mw hm; simp at hm; subst hm; decide)

/-- C8: an exact page match is tried first — a request to
`/post/create` whose components resolve renders that static page with
no dynamic matcher ever consulted, whatever the dynamic route table
contains — and in the dynamic scan the first matching route whose
components resolve wins. -/
theorem static_page_beats_dynamic (sys : DispatchSystem)
    (mm dd bubble : Bool) (p : Option ResponsePayload)
    (hexact : sys.pageOutcome "/post/create" = .attempt (.ok p)) :
    renderToResponse sys mm dd bubble "/post/create" =
      ⟨.payload "/post/create" p, []⟩ ∧
    ∀ (sys2 : DispatchSystem) (pathname page : String)
      (q : Option ResponsePayload)
      (pre rest : List (String × (String → Bool))) (m : String → Bool),
      sys2.pageOutcome pathname = .notFound →
      sys2.dynRoutes = pre ++ (page, m) :: rest →
      (∀ e ∈ pre, e.2 pathname = false) →
      m pathname = true →
      sys2.pageOutcome page = .attempt (.ok q) →
      (renderToResponse sys2 mm dd bubble pathname).result =
        .payload page q := by
  constructor
  · unfold renderToResponse
    rw [hexact]
  · intro sys2 pathname page q pre rest m hnf hroutes hpre hm hpage
    unfold renderToResponse
    rw [hnf, hroutes]
    clear hroutes
    suffices h : ∀ (pre2 : List (String × (String → Bool))),
        (∀ e ∈ pre2, e.2 pathname = false) → ∀ tried,
        (scanDynRoutes sys2 mm dd bubble pathname
          (pre2 ++ (page, m) :: rest) tried).result = .payload page q by
      exact h pre hpre []
    intro pre2
    induction pre2 with
    | nil =>
      intro _ tried
      unfold scanDynRoutes
      simp [hm, hpage]
    | cons hd tl ih =>
      intro hpre2 tried
      obtain ⟨a, b⟩ := hd
      have hb : b pathname = false := by
        simpa using hpre2 (a, b) (List.mem_cons_self _ _)
      unfold scanDynRoutes
      simp only [List.cons_append, hb, Bool.false_eq_true, if_false]
      exact ih (fun e he => hpre2 e (List.mem_cons_of_mem _ he)) (a :: tried)

/-- When every page attempt is "not found" or a `NoFallbackError`, the
non-bubbling dynamic scan always ends in status 404 with a null-error
render. -/
lemma scanDynRoutes_all_nofallback_404 (sys : DispatchSystem)
    (mm dd : Bool) (pathname : String)
    (hall : ∀ page, sys.pageOutcome page = .notFound ∨
      sys.pageOutcome page = .attempt (.error .noFallback)) :
    ∀ (l : List (String × (String → Bool))) (tried : List String),
      (scanDynRoutes sys mm dd false pathname l tried).result =
        .errorResponse 404 none := by
  intro l
  induction l with
  | nil => intro tried; rfl
  | cons hd tl ih =>
    intro tried
    obtain ⟨page, m⟩ := hd
    unfold scanDynRoutes
    rcases hall page with h | h <;> by_cases hm : m pathname <;>
      simp [h, hm, ih]

/-- C2: for a production request to a dynamic SSG page with
`fallback: false` whose path has no prebuilt entry (the cache did not
resolve and the response is unsent), the producer raises
`NoFallbackError` without ever invoking the renderer; the dispatch
boundary converts such errors into a final 404 render — never a 500 —
and, when `_nextBubbleNoFallback` is set, rethrows it so the route
search can continue. -/
theorem fallback_false_unknown_path_404 (c : ProducerCtx)
    (sys : DispatchSystem) (pathname : String) (mm dd : Bool)
    (hdev : c.dev = false) (hmin : c.minimalMode = false)
    (hdyn : isDynamicRoute c.pathname = true)
    (hsp : c.hasStaticPaths = true) (hf : c.fallbackField = .falseVal)
    (hkey : c.ssgCacheKey.isSome = true) (hsent : c.resSent = false)
    (hprev : c.isPreviewMode = false)
    (hall : ∀ page, sys.pageOutcome page = .notFound ∨
      sys.pageOutcome page = .attempt (.error .noFallback)) :
    responseCacheProducer c false = (.error .noFallback, ⟨false, false⟩) ∧
    (renderToResponse sys mm dd false pathname).result =
      .errorResponse 404 none ∧
    (∀ e, (renderToResponse sys mm dd false pathname).result ≠
      .errorResponse 500 e) ∧
    (sys.pageOutcome pathname = .attempt (.error .noFallback) →
      (renderToResponse sys mm dd true pathname).result =
        .thrown .noFallback) := by
  have hprod : responseCacheProducer c false =
      (.error .noFallback, ⟨false, false⟩) := by
    unfold responseCacheProducer
    simp [hdev, hmin, hdyn, hsp, hf, hkey, hsent, hprev, fallbackModeOf]
  have hdisp : (renderToResponse sys mm dd false pathname).result =
      .errorResponse 404 none := by
    unfold renderToResponse
    rcases hall pathname with h | h
    · rw [h]
      exact scanDynRoutes_all_nofallback_404 sys mm dd pathname hall _ _
    · rw [h]
      simp only [Bool.false_eq_true, if_false]
      exact scanDynRoutes_all_nofallback_404 sys mm dd pathname hall _ _
  refine ⟨hprod, hdisp, ?_, ?_⟩
  · intro e h500
    rw [hdisp] at h500
    simp at h500
  · intro hx
    unfold renderToResponse
    rw [hx]
    simp [dispatchCatch]

/-- C4: a malformed percent-encoded path segment (such as `%E0%A4%A`)
fails decoding; the `DecodeError` it raises aborts
`renderToResponseWithComponents` before the renderer is invoked and
before anything is cached; the dispatch catch converts a `DecodeError`
into status 400 with an error render, with no retry; and the router
boundary `run` does the same for `DecodeError`s thrown during route
matching. -/
theorem malformed_encoding_400_no_render (c : WithComponentsCtx)
    (st : ResState) (mm dd bubble : Bool)
    (hstat : c.componentIsStaticString = none)
    (hdecode : computeSsgCacheKey (wcKeyCtx c) = .error .decodeError) :
    decodeURIComponent "%E0%A4%A" = none ∧
    (renderToResponseWithComponents c st).result = .error .decodeError ∧
    (renderToResponseWithComponents c st).trace.rendererInvoked = false ∧
    (renderToResponseWithComponents c st).stored = none ∧
    dispatchCatch mm dd bubble .decodeError =
      .errorResponse 400 (some .decodeError) ∧
    runHandler .threwDecode = .errorRendered 400 := by
  refine ⟨rfl, ?_, ?_, ?_, ?_, rfl⟩
  · unfold renderToResponseWithComponents
    simp [hstat, hdecode]
  · unfold renderToResponseWithComponents
    simp [hstat, hdecode]
  · unfold renderToResponseWithComponents
    simp [hstat, hdecode]
  · simp [dispatchCatch]

/-- C5: under `/_next/data/`, a wrong (or missing) buildId segment or a
last segment not ending in `.json` yields a 404; with the correct
buildId the segment is stripped and `/{buildId}/en/about.json` resolves
to exactly the page-and-locale pair that the catch-all render route
computes for `/en/about`, rendered with the `_nextDataReq` flag; and a
data request's payload body is the page's serialized `pageData` only. -/
theorem next_data_route_handling (buildId wrongId : String)
    (i18n : Option I18NConfig) (host : Option String)
    (restPath : List String) (hne : wrongId ≠ buildId) :
    nextDataCatchall buildId i18n host (wrongId :: restPath) = .render404 ∧
    nextDataCatchall buildId i18n host [] = .render404 ∧
    nextDataCatchall buildId i18n host [buildId] = .render404 ∧
    nextDataCatchall buildId i18n host [buildId, "about.xml"] =
      .render404 ∧
    nextDataCatchall buildId (some ⟨["en", "fr"], "en", []⟩) none
        [buildId, "en", "about.json"] =
      .render "/about" true (some "en") (some "en") ∧
    catchAllRouteNormalize (some ⟨["en", "fr"], "en", []⟩) "/en/about" =
      ("/about", some "en") ∧
    ∀ (ct : EntryCtx) (key : Option String) (rev : Option Revalidate)
      (html pageData : String) (st : ResState), ct.isDataReq = true →
      ∃ ropts, handleCacheEntry ct key
          (some ⟨rev, some (.page html pageData)⟩) st =
        (.ok (some ⟨.json, pageData, ropts⟩), st) := by
  refine ⟨?_, rfl, ?_, ?_, ?_, rfl, ?_⟩
  · unfold nextDataCatchall
    rw [if_pos]
    simp [hne]
  · unfold nextDataCatchall
    rw [if_neg (by simp)]
    rfl
  · unfold nextDataCatchall
    rw [if_neg (by simp)]
    have hg : ([buildId, "about.xml"].tail).getLast? = some "about.xml" := rfl
    have hxml : strEndsWith "about.xml" ".json" = false := by decide
    simp [hg, hxml]
  · unfold nextDataCatchall
    rw [if_neg (by simp)]
    simp only [List.tail_cons]
    decide
  · intro ct key rev html pageData st hd
    refine ⟨?_, ?_⟩
    · exact
        match rev with
        | some r =>
          if ¬ct.dev ∨ (ct.hasServerProps ∧ ¬ct.isDataReq) then
            some ⟨ct.isPreviewMode ∨ (ct.is404Page ∧ True), !ct.isSSG, r⟩
          else none
        | none => none
    · unfold handleCacheEntry
      simp [hd]

/-- The empty cache state. -/
def coalesceInit : CoalesceState := ⟨[], 0, [], []⟩

/-- `alookup` is unchanged by filtering out entries of a different
key. -/
lemma alookup_filter_ne {β : Type} (l : List (String × β)) (k k' : String)
    (h : k ≠ k') :
    alookup k (l.filter (fun e => e.1 ≠ k')) = alookup k l := by
  induction l with
  | nil => rfl
  | cons hd tl ih =>
    obtain ⟨a, b⟩ := hd
    simp only [decide_not] at ih ⊢
    by_cases ha : a = k'
    · subst ha
      simp [alookup, List.filter_cons, Ne.symm h, ih]
    · by_cases hk : a = k
      · subst hk
        simp [alookup, List.filter_cons, ha, ih]
      · simp [alookup, List.filter_cons, ha, hk, ih]

/-- An arrival that finds a production in flight only records the
caller's assignment. -/
lemma coalesceStep_arrive_hit (s : CoalesceState) (c : Nat) (k : String)
    (p : Nat) (h : alookup k s.inFlight = some p) :
    coalesceStep s (.arrive c k) =
      { s with assigned := (c, p) :: s.assigned } := by
  simp [coalesceStep, h]

/-- An arrival that finds no production in flight starts a fresh
production: it is registered in flight, invoked, and assigned. -/
lemma coalesceStep_arrive_miss (s : CoalesceState) (c : Nat) (k : String)
    (h : alookup k s.inFlight = none) :
    coalesceStep s (.arrive c k) =
      { s with
        inFlight := (k, s.nextProd) :: s.inFlight,
        nextProd := s.nextProd + 1,
        invoked := (k, s.nextProd) :: s.invoked,
        assigned := (c, s.nextProd) :: s.assigned } := by
  simp [coalesceStep, h]

/-- Events other than `complete k` preserve the in-flight production for
`k`. -/
lemma coalesceStep_preserves_inFlight {s : CoalesceState} {k : String}
    {p : Nat} (hp : alookup k s.inFlight = some p) (e : CacheEv)
    (he : e ≠ .complete k) :
    alookup k (coalesceStep s e).inFlight = some p := by
  cases e with
  | arrive c k' =>
    cases hl : alookup k' s.inFlight with
    | some q =>
      rw [coalesceStep_arrive_hit s c k' q hl]
      exact hp
    | none =>
      have hkk : k' ≠ k := by
        intro hk
        subst hk
        rw [hp] at hl
        exact Option.noConfusion hl
      rw [coalesceStep_arrive_miss s c k' hl]
      simp [alookup, hkk, hp]
  | complete k' =>
    have hkk : k' ≠ k := fun hk => he (by rw [hk])
    show alookup k (s.inFlight.filter (fun e => e.1 ≠ k')) = some p
    rw [alookup_filter_ne s.inFlight k k' (Ne.symm hkk)]
    exact hp

/-- While a production for `k` is in flight, no event other than
`complete k` changes the producer-invocation count for `k`. -/
lemma coalesceStep_preserves_prodCount {s : CoalesceState} {k : String}
    {p : Nat} (hp : alookup k s.inFlight = some p) (e : CacheEv)
    (he : e ≠ .complete k) :
    prodCount (coalesceStep s e) k = prodCount s k := by
  cases e with
  | arrive c k' =>
    cases hl : alookup k' s.inFlight with
    | some q =>
      rw [coalesceStep_arrive_hit s c k' q hl]
      rfl
    | none =>
      have hkk : k' ≠ k := by
        intro hk
        subst hk
        rw [hp] at hl
        exact Option.noConfusion hl
      rw [coalesceStep_arrive_miss s c k' hl]
      simp [prodCount, hkk]
  | complete k' => simp [coalesceStep, prodCount]

/-- Events by other callers preserve a caller's assignment. -/
lemma coalesceStep_preserves_assigned {s : CoalesceState} {c : Nat}
    {p : Nat} (hc : alookup c s.assigned = some p) (e : CacheEv)
    (he : ∀ k', e ≠ .arrive c k') :
    alookup c (coalesceStep s e).assigned = some p := by
  cases e with
  | arrive c' k' =>
    have hcc : c' ≠ c := fun hk => (he k') (by rw [hk])
    cases hl : alookup k' s.inFlight with
    | some q =>
      rw [coalesceStep_arrive_hit s c' k' q hl]
      simp [alookup, hcc, hc]
    | none =>
      rw [coalesceStep_arrive_miss s c' k' hl]
      simp [alookup, hcc, hc]
  | complete k' => simpa [coalesceStep] using hc

/-- The producer-invocation log only grows. -/
lemma coalesceStep_invoked_mono {s : CoalesceState} {k : String} {p : Nat}
    (hm : (k, p) ∈ s.invoked) (e : CacheEv) :
    (k, p) ∈ (coalesceStep s e).invoked := by
  cases e with
  | arrive c k' =>
    cases hl : alookup k' s.inFlight with
    | some q =>
      rw [coalesceStep_arrive_hit s c k' q hl]
      exact hm
    | none =>
      rw [coalesceStep_arrive_miss s c k' hl]
      exact List.mem_cons_of_mem _ hm
  | complete k' => simpa [coalesceStep] using hm

/-- A trace that never completes `k` and contains no arrival by caller
`c` preserves the in-flight production for `k`, the assignment of `c`,
the membership of the invocation log, and the invocation count for
`k`. -/
lemma coalesceRun_preserves (k : String) (c : Nat) (p : Nat) :
    ∀ (mid : List CacheEv) (s : CoalesceState),
      (∀ e ∈ mid, e ≠ .complete k ∧ ∀ k', e ≠ .arrive c k') →
      alookup k s.inFlight = some p →
      alookup c s.assigned = some p →
      (k, p) ∈ s.invoked →
      alookup k (coalesceRun s mid).inFlight = some p ∧
      alookup c (coalesceRun s mid).assigned = some p ∧
      (k, p) ∈ (coalesceRun s mid).invoked ∧
      prodCount (coalesceRun s mid) k = prodCount s k := by
  intro mid
  induction mid with
  | nil => exact fun s _ hp hc hm => ⟨hp, hc, hm, rfl⟩
  | cons e rest ih =>
    intro s hmid hp hc hm
    have he := hmid e (List.mem_cons_self _ _)
    have hstep1 := coalesceStep_preserves_inFlight hp e he.1
    have hstep2 := coalesceStep_preserves_assigned hc e he.2
    have hstep3 := coalesceStep_invoked_mono hm e
    have hstep4 := coalesceStep_preserves_prodCount hp e he.1
    have hrun : coalesceRun s (e :: rest) =
        coalesceRun (coalesceStep s e) rest := rfl
    rw [hrun]
    obtain ⟨a1, a2, a3, a4⟩ := ih (coalesceStep s e)
      (fun e' he' => hmid e' (List.mem_cons_of_mem _ he')) hstep1 hstep2
      hstep3
    exact ⟨a1, a2, a3, a4.trans hstep4⟩

/-- C1: in any trace where caller `c1` arrives for key `k` with no
production in flight, and caller `c2` arrives later with no intervening
completion of `k` (and no re-arrival of `c1`), both callers are
assigned one and the same production `p`, `p` was actually invoked, and
the producer ran exactly once more than before `c1` arrived — however
many other arrivals and completions are interleaved. -/
theorem coalesced_cache_single_producer (pre mid : List CacheEv)
    (c1 c2 : Nat) (k : String)
    (h0 : alookup k (coalesceRun coalesceInit pre).inFlight = none)
    (hmid : ∀ e ∈ mid, e ≠ .complete k ∧ ∀ k', e ≠ .arrive c1 k')
    (hc12 : c1 ≠ c2) :
    ∃ p,
      assignedTo (coalesceRun coalesceInit
        (pre ++ .arrive c1 k :: (mid ++ [.arrive c2 k]))) c1 = some p ∧
      assignedTo (coalesceRun coalesceInit
        (pre ++ .arrive c1 k :: (mid ++ [.arrive c2 k]))) c2 = some p ∧
      (k, p) ∈ (coalesceRun coalesceInit
        (pre ++ .arrive c1 k :: (mid ++ [.arrive c2 k]))).invoked ∧
      prodCount (coalesceRun coalesceInit
          (pre ++ .arrive c1 k :: (mid ++ [.arrive c2 k]))) k =
        prodCount (coalesceRun coalesceInit pre) k + 1 := by
  have hsplit : coalesceRun coalesceInit
      (pre ++ .arrive c1 k :: (mid ++ [.arrive c2 k])) =
      coalesceStep
        (coalesceRun
          (coalesceStep (coalesceRun coalesceInit pre) (.arrive c1 k)) mid)
        (.arrive c2 k) := by
    simp only [coalesceRun, List.foldl_append, List.foldl_cons,
      List.foldl_nil]
  rw [hsplit]
  rw [coalesceStep_arrive_miss (coalesceRun coalesceInit pre) c1 k h0]
  set s0 := coalesceRun coalesceInit pre with hs0
  set s1 : CoalesceState :=
    { s0 with
      inFlight := (k, s0.nextProd) :: s0.inFlight,
      nextProd := s0.nextProd + 1,
      invoked := (k, s0.nextProd) :: s0.invoked,
      assigned := (c1, s0.nextProd) :: s0.assigned } with hs1
  have h1a : alookup k s1.inFlight = some s0.nextProd := by
    simp [hs1, alookup]
  have h1b : alookup c1 s1.assigned = some s0.nextProd := by
    simp [hs1, alookup]
  have h1c : (k, s0.nextProd) ∈ s1.invoked := by
    simp [hs1]
  have h1d : prodCount s1 k = prodCount s0 k + 1 := by
    simp [hs1, prodCount]
  obtain ⟨a1, a2, a3, a4⟩ :=
    coalesceRun_preserves k c1 s0.nextProd mid s1 hmid h1a h1b h1c
  rw [coalesceStep_arrive_hit (coalesceRun s1 mid) c2 k s0.nextProd a1]
  refine ⟨s0.nextProd, ?_, ?_, ?_, ?_⟩
  · have hc21 : c2 ≠ c1 := Ne.symm hc12
    simpa [assignedTo, alookup, hc21] using a2
  · simp [assignedTo, alookup]
  · simpa using a3
  · have hpc : prodCount
        { coalesceRun s1 mid with
          assigned := (c2, s0.nextProd) :: (coalesceRun s1 mid).assigned }
        k = prodCount (coalesceRun s1 mid) k := rfl
    rw [hpc, a4, h1d]

/-- Witness for `coalesced_cache_single_producer`: callers 1 and 2 both
want `/post/1`; caller 5 arrives for another key in between. -/
theorem coalesced_cache_single_producer_witness :
    ∃ p,
      assignedTo (coalesceRun coalesceInit
        ([] ++ .arrive 1 "/post/1" ::
          ([.arrive 5 "/other"] ++ [.arrive 2 "/post/1"]))) 1 = some p ∧
      assignedTo (coalesceRun coalesceInit
        ([] ++ .arrive 1 "/post/1" ::
          ([.arrive 5 "/other"] ++ [.arrive 2 "/post/1"]))) 2 = some p ∧
      ("/post/1", p) ∈ (coalesceRun coalesceInit
        ([] ++ .arrive 1 "/post/1" ::
          ([.arrive 5 "/other"] ++ [.arrive 2 "/post/1"]))).invoked ∧
      prodCount (coalesceRun coalesceInit
          ([] ++ .arrive 1 "/post/1" ::
            ([.arrive 5 "/other"] ++ [.arrive 2 "/post/1"]))) "/post/1" =
        prodCount (coalesceRun coalesceInit []) "/post/1" + 1 :=
  coalesced_cache_single_producer [] [.arrive 5 "/other"] 1 2 "/post/1"
    rfl
    (by
      intro e he
      simp only [List.mem_singleton] at he
      subst he
      exact ⟨by simp, fun k' => by simp⟩)
    (by decide)

/-- A renderer outcome producing a plain page body. -/
def sampleRenderOutcome : RenderOutcome :=
  { isNotFound := false
    isRedirect := false
    hasBody := true
    html := "<html>page</html>"
    pageData := "\x7b\x7d"
    redirectProps := ⟨"/", none, false⟩
    revalidate := some (.num 10) }

/-- A production request for `/post/xyz` against the dynamic SSG page
`/post/[id]` whose manifest fallback is `false`. -/
def fallbackFalseCtx : ProducerCtx :=
  { dev := false
    minimalMode := false
    pathname := "/post/[id]"
    hasStaticPaths := true
    fallbackField := .falseVal
    staticPaths := none
    isBotUA := false
    ssgCacheKey := some "/post/xyz"
    resSent := false
    isPreviewMode := false
    isDataReq := false
    queryAmp := false
    fallbackHtml := ""
    renderOutcome := sampleRenderOutcome
    devFallbackOutcome := sampleRenderOutcome }

/-- A page system where `/post/[id]` raises `NoFallbackError` and
everything else is not found. -/
def noPageSystem : DispatchSystem :=
  { pageOutcome := fun p =>
      if p = "/post/[id]" then .attempt (.error .noFallback) else .notFound
    dynRoutes := [("/post/[id]", fun _ => true)] }

/-- Witness for `fallback_false_unknown_path_404` at the concrete
request `/post/xyz`. -/
theorem fallback_false_unknown_path_404_witness :
    responseCacheProducer fallbackFalseCtx false =
      (.error .noFallback, ⟨false, false⟩) ∧
    (renderToResponse noPageSystem false false false "/post/xyz").result =
      .errorResponse 404 none ∧
    (∀ e, (renderToResponse noPageSystem false false false
      "/post/xyz").result ≠ .errorResponse 500 e) ∧
    (noPageSystem.pageOutcome "/post/xyz" = .attempt (.error .noFallback) →
      (renderToResponse noPageSystem false false true "/post/xyz").result =
        .thrown .noFallback) :=
  fallback_false_unknown_path_404 fallbackFalseCtx noPageSystem "/post/xyz"
    false false rfl rfl rfl rfl rfl rfl rfl rfl
    (by
      intro page
      by_cases h : page = "/post/[id]"
      · exact Or.inr (by simp [noPageSystem, h])
      · exact Or.inl (by simp [noPageSystem, h]))

/-- A production SSG request whose resolved URL contains the malformed
percent-encoded segment `%E0%A4%A`. -/
def malformedCtx : WithComponentsCtx :=
  { dev := false
    minimalMode := false
    pathname := "/post/[id]"
    locale := none
    resolvedUrlPathname := "/post/%E0%A4%A"
    queryAmp := false
    getStaticProps := true
    hasServerProps := false
    hasStaticPaths := true
    isLikeServerless := false
    documentHasGetInitialProps := false
    supportsDynamicHTML0 := false
    hasPreviewData := false
    queryNextDataReq := false
    componentIsStaticString := none
    fallbackField := .falseVal
    staticPaths := none
    isBotUA := false
    resSent := false
    fallbackHtml := ""
    renderOutcome := sampleRenderOutcome
    devFallbackOutcome := sampleRenderOutcome
    cachedEntry := none
    isStale := false
    basePath := "" }

/-- Witness for `malformed_encoding_400_no_render` at the concrete
request for `/post/%E0%A4%A`. -/
theorem malformed_encoding_400_no_render_witness :
    decodeURIComponent "%E0%A4%A" = none ∧
    (renderToResponseWithComponents malformedCtx {}).result =
      .error .decodeError ∧
    (renderToResponseWithComponents malformedCtx {}).trace.rendererInvoked =
      false ∧
    (renderToResponseWithComponents malformedCtx {}).stored = none ∧
    dispatchCatch false false false .decodeError =
      .errorResponse 400 (some .decodeError) ∧
    runHandler .threwDecode = .errorRendered 400 :=
  malformed_encoding_400_no_render malformedCtx {} false false false rfl rfl

/-- Witness for `next_data_route_handling` with buildId `bid` and wrong
buildId `wrong`. -/
theorem next_data_route_handling_witness :
    nextDataCatchall "bid" none none ["wrong"] = .render404 ∧
    nextDataCatchall "bid" none none [] = .render404 ∧
    nextDataCatchall "bid" none none ["bid"] = .render404 ∧
    nextDataCatchall "bid" none none ["bid", "about.xml"] = .render404 ∧
    nextDataCatchall "bid" (some ⟨["en", "fr"], "en", []⟩) none
        ["bid", "en", "about.json"] =
      .render "/about" true (some "en") (some "en") ∧
    catchAllRouteNormalize (some ⟨["en", "fr"], "en", []⟩) "/en/about" =
      ("/about", some "en") ∧
    ∀ (ct : EntryCtx) (key : Option String) (rev : Option Revalidate)
      (html pageData : String) (st : ResState), ct.isDataReq = true →
      ∃ ropts, handleCacheEntry ct key
          (some ⟨rev, some (.page html pageData)⟩) st =
        (.ok (some ⟨.json, pageData, ropts⟩), st) :=
  next_data_route_handling "bid" "wrong" none none [] (by decide)

/-- The redirect metadata of a page declaring a permanent redirect. -/
def sampleRedirectProps : RedirectProps := ⟨"/dest", some 308, false⟩

/-- The entry context of a navigation (non-data) request. -/
def navEntryCtx : EntryCtx :=
  { dev := false
    hasServerProps := false
    isDataReq := false
    isPreviewMode := false
    is404Page := false
    isSSG := true
    basePath := "" }

/-- Witness for `redirect_value_json_vs_http` at a concrete permanent
redirect. -/
theorem redirect_value_json_vs_http_witness :
    (navEntryCtx.isDataReq = true →
      ∃ ropts,
        handleCacheEntry navEntryCtx none
            (some ⟨some (.num 1), some (.redirect sampleRedirectProps)⟩) {} =
          (.ok (some ⟨.json, serializeRedirectProps sampleRedirectProps,
            ropts⟩), {})) ∧
    (navEntryCtx.isDataReq = false →
      (handleCacheEntry navEntryCtx none
        (some ⟨some (.num 1), some (.redirect sampleRedirectProps)⟩)
        {}).1 = .ok none ∧
      (handleCacheEntry navEntryCtx none
        (some ⟨some (.num 1), some (.redirect sampleRedirectProps)⟩)
        {}).2.statusCode = some (getRedirectStatus sampleRedirectProps) ∧
      300 ≤ getRedirectStatus sampleRedirectProps ∧
      getRedirectStatus sampleRedirectProps < 400 ∧
      (handleCacheEntry navEntryCtx none
        (some ⟨some (.num 1), some (.redirect sampleRedirectProps)⟩)
        {}).2.locationHdr ≠ none ∧
      (((handleCacheEntry navEntryCtx none
        (some ⟨some (.num 1), some (.redirect sampleRedirectProps)⟩)
        {}).2.refreshHdr ≠ none) ↔
        getRedirectStatus sampleRedirectProps = 308)) :=
  redirect_value_json_vs_http navEntryCtx none sampleRedirectProps
    (some (.num 1)) {} rfl
    (by
      intro n h
      have hn := Option.some.inj h
      subst hn
      decide)

/-- A page system with the static page `/post/create` and an
always-matching dynamic route. -/
def postPagesSystem : DispatchSystem :=
  { pageOutcome := fun p =>
      if p = "/post/create" then
        .attempt (.ok (some ⟨.html, "create page", none⟩))
      else .notFound
    dynRoutes := [("/post/[id]", fun _ => true)] }

/-- Witness for `static_page_beats_dynamic` on the page set
`{/post/create, /post/[id]}`. -/
theorem static_page_beats_dynamic_witness :
    renderToResponse postPagesSystem false false false "/post/create" =
      ⟨.payload "/post/create" (some ⟨.html, "create page", none⟩), []⟩ ∧
    ∀ (sys2 : DispatchSystem) (pathname page : String)
      (q : Option ResponsePayload)
      (pre rest : List (String × (String → Bool))) (m : String → Bool),
      sys2.pageOutcome pathname = .notFound →
      sys2.dynRoutes = pre ++ (page, m) :: rest →
      (∀ e ∈ pre, e.2 pathname = false) →
      m pathname = true →
      sys2.pageOutcome page = .attempt (.ok q) →
      (renderToResponse sys2 false false false pathname).result =
        .payload page q :=
  static_page_beats_dynamic postPagesSystem false false false
    (some ⟨.html, "create page", none⟩) rfl

/-- An error-render system in which every page's render fails and no
fallback error components exist. -/
def failingErrorSys : ErrorRenderSys :=
  { statusCode := some 500
    has404Page := false
    has500Page := true
    hasErrorPage := true
    renderResult := fun _ => .error .generic
    hasFallbackComponents := false
    fallbackRenderResult := .ok none }

/-- Witness for `error_page_failure_degrades`. -/
theorem error_page_failure_degrades_witness :
    renderErrorToResponse failingErrorSys {} =
      (.ok (some ⟨.html, "Internal Server Error", none⟩),
        { ({} : ResState) with statusCode := some 500 }) :=
  error_page_failure_degrades failingErrorSys {}
    (fun _ => ⟨.generic, rfl⟩) rfl

/-- A bot request for a dynamic SSG page whose manifest fallback is the
prebuilt skeleton path. -/
def botProducerCtx : ProducerCtx :=
  { dev := false
    minimalMode := false
    pathname := "/post/[id]"
    hasStaticPaths := true
    fallbackField := .str "/post/[id].html"
    staticPaths := none
    isBotUA := true
    ssgCacheKey := some "/post/1"
    resSent := false
    isPreviewMode := false
    isDataReq := false
    queryAmp := false
    fallbackHtml := "<html>skeleton</html>"
    renderOutcome := sampleRenderOutcome
    devFallbackOutcome := sampleRenderOutcome }

/-- Witness for `bot_promotes_static_fallback_to_blocking`. -/
theorem bot_promotes_static_fallback_to_blocking_witness :
    responseCacheProducer botProducerCtx false =
      responseCacheProducer
        { botProducerCtx with fallbackField := .nullVal } false ∧
    (responseCacheProducer botProducerCtx false).2.servedFallbackHTML =
      false ∧
    (responseCacheProducer botProducerCtx false).2.rendererInvoked = true ∧
    (responseCacheProducer botProducerCtx false).1 ≠ .error .noFallback :=
  bot_promotes_static_fallback_to_blocking botProducerCtx false
    "/post/[id].html" rfl rfl rfl

end NextServer
